import Mathlib

/-!
Verification development for the DiagView diagram export pipeline.

The definitions below are a shallow embedding of the JavaScript sources:

  * `src/features/export.js`   — dimension resolution, render plan, encoders
  * `src/core/svg-clone.js`    — style-baking clone of the SVG tree
  * `src/core/config.js`       — configuration state and validation

Numbers are modelled as rationals.  `Math.sqrt` is a host primitive in the
source, so it enters the model as an explicit function parameter; theorems
that need its defining property take it as a hypothesis at the point where
the code queries it.  `Math.round x` is `round x = ⌊x + 1/2⌋`, which agrees
with the JavaScript semantics on all inputs.
-/

namespace DiagView

/-! ### Dimension resolver (`export.js`, `getRobustDimensions`) -/

/-- Result of `svg.getBBox()`: the ink bounding box of the rendered content. -/
structure BBox where
  x : ℚ
  y : ℚ
  w : ℚ
  h : ℚ
deriving DecidableEq

/-- The geometry queries `getRobustDimensions` performs on the live SVG.
`bbox = none` models `getBBox()` throwing (the code catches and ignores);
`viewBox` is the attribute after `split(/\s+|,/).map(parseFloat)`, `none`
when `hasAttribute("viewBox")` is false; `rectW`/`rectH` come from
`getBoundingClientRect()` and are nonnegative in any browser. -/
structure SvgGeom where
  bbox : Option BBox
  viewBox : Option (List ℚ)
  rectW : ℚ
  rectH : ℚ
deriving DecidableEq

/-- The record returned by `getRobustDimensions`. -/
structure Dims where
  x : ℚ
  y : ℚ
  w : ℚ
  h : ℚ
  src : String
deriving DecidableEq

/-- JavaScript `a || b` on numbers: `b` when `a` is falsy (zero). -/
def jsOr (a b : ℚ) : ℚ := if a = 0 then b else a

/-- Tier 2 of the fallback chain: the declared `viewBox` attribute, accepted
when it parses to four numbers with positive width and height
(`vb.length === 4 && vb[2] > 0 && vb[3] > 0`). -/
def viewBoxDims (g : SvgGeom) : Option Dims :=
  match g.viewBox with
  | some [a, b, c, d] => if 0 < c ∧ 0 < d then some ⟨a, b, c, d, "viewBox"⟩ else none
  | _ => none

/-- Tier 3 of the fallback chain: the client rect with origin (0,0) assumed
and `rect.width || 1000`, `rect.height || 1000` substitution. -/
def rectDims (g : SvgGeom) : Dims :=
  ⟨0, 0, jsOr g.rectW 1000, jsOr g.rectH 1000, "rect"⟩

/-- `getRobustDimensions` from `export.js` lines 31-54: bbox first, then
viewBox, then client rect. -/
def getRobustDimensions (g : SvgGeom) : Dims :=
  match g.bbox with
  | some b =>
      if 0 < b.w ∧ 0 < b.h then ⟨b.x, b.y, b.w, b.h, "bbox"⟩
      else (viewBoxDims g).getD (rectDims g)
  | none => (viewBoxDims g).getD (rectDims g)

/-! ### Render plan (`export.js`, `prepareSvgForExport` and `renderToCanvas`) -/

/-- Modelled from the spec: `core/constants.js` is not among the provided
sources.  The comment at `export.js` line 83 ("Padding (5% or minimum 20px)")
fixes `EXPORT.SVG_EXPORT_PADDING / 2 = 20`, hence the constant 40. -/
def SVG_EXPORT_PADDING : ℚ := 40

/-- Modelled from the spec: default desktop export scale, documented as 6 in
`docs/USAGE.md` (`core/constants.js` is missing from the sources). -/
def HIGH_RES_SCALE_DEFAULT : ℚ := 6

/-- Modelled from the spec: default mobile export scale, documented as 2 in
`docs/USAGE.md` (`core/constants.js` is missing from the sources). -/
def MOBILE_SCALE_DEFAULT : ℚ := 2

/-- Modelled from the spec: default pixel budget, documented as 25000000 in
`docs/USAGE.md` and `docs/API.md` (`core/constants.js` is missing). -/
def MAX_PIXELS_DEFAULT : ℚ := 25000000

/-- `const zoomCushion = Math.max(d.w, d.h) * 0.05` (`export.js` line 85). -/
def zoomCushion (d : Dims) : ℚ := max d.w d.h * (5 / 100)

/-- `const padding = Math.max(EXPORT.SVG_EXPORT_PADDING / 2, zoomCushion)`
(`export.js` line 86), parametric in the padding constant. -/
def exportPadding (svgExportPadding : ℚ) (d : Dims) : ℚ :=
  max (svgExportPadding / 2) (zoomCushion d)

/-- The viewBox stamped onto the export clone (`export.js` lines 90-96):
origin shifted by the padding, size grown by twice the padding.  The
returned `width`/`height` of `prepareSvgForExport` equal `vw`/`vh`. -/
structure CropBox where
  vx : ℚ
  vy : ℚ
  vw : ℚ
  vh : ℚ
deriving DecidableEq

/-- The numeric part of `prepareSvgForExport` (`export.js` lines 81-96). -/
def exportViewBox (svgExportPadding : ℚ) (d : Dims) : CropBox :=
  let padding := exportPadding svgExportPadding d
  ⟨d.x - padding, d.y - padding, d.w + padding * 2, d.h + padding * 2⟩

/-- `renderToCanvas` scale capping (`export.js` lines 156-161): when
`(width * scale) * (height * scale)` exceeds `maxPixels`, the scale becomes
`Math.sqrt(maxPixels / (width * height))`. -/
def cappedScale (sqrt : ℚ → ℚ) (maxPixels width height scale : ℚ) : ℚ :=
  if (width * scale) * (height * scale) > maxPixels then
    sqrt (maxPixels / (width * height))
  else scale

/-- The canvas allocation computed by `renderToCanvas` (lines 163-165):
`canvas.width = Math.round(width * scale)` and likewise for the height. -/
structure CanvasPlan where
  scale : ℚ
  canvasW : ℤ
  canvasH : ℤ
deriving DecidableEq

/-- Lines 149-165 of `export.js`: pick the device scale (with the `||`
defaulting the code performs), cap it against the pixel budget, round the
canvas dimensions. -/
def renderCanvasPlan (sqrt : ℚ → ℚ) (maxPixels width height requested : ℚ) :
    CanvasPlan :=
  let scale := cappedScale sqrt maxPixels width height requested
  ⟨scale, round (width * scale), round (height * scale)⟩

/-- The full numeric export plan: resolve dimensions, build the padded crop
box, select the device scale, cap and round — the composition a single
`exportImage`/`exportPDF` call performs before touching the canvas. -/
def exportPlan (sqrt : ℚ → ℚ) (svgExportPadding maxPixels : ℚ)
    (isMobile : Bool) (mobileScale highResScale : ℚ) (g : SvgGeom) :
    CropBox × CanvasPlan :=
  let d := getRobustDimensions g
  let vb := exportViewBox svgExportPadding d
  let requested :=
    if isMobile then jsOr mobileScale MOBILE_SCALE_DEFAULT
    else jsOr highResScale HIGH_RES_SCALE_DEFAULT
  (vb, renderCanvasPlan sqrt maxPixels vb.vw vb.vh requested)

/-! ### Shared helper lemmas for the dimension resolver -/

lemma viewBoxDims_pos {g : SvgGeom} {dd : Dims} (h : viewBoxDims g = some dd) :
    0 < dd.w ∧ 0 < dd.h := by
  unfold viewBoxDims at h
  split at h
  · split_ifs at h with hcd
    cases h
    exact ⟨hcd.1, hcd.2⟩
  · exact absurd h (by simp)

lemma rectDims_pos {g : SvgGeom} (hw : 0 ≤ g.rectW) (hh : 0 ≤ g.rectH) :
    0 < (rectDims g).w ∧ 0 < (rectDims g).h := by
  constructor
  · dsimp [rectDims, jsOr]
    split_ifs with h0
    · norm_num
    · exact lt_of_le_of_ne hw (fun e => h0 e.symm)
  · dsimp [rectDims, jsOr]
    split_ifs with h0
    · norm_num
    · exact lt_of_le_of_ne hh (fun e => h0 e.symm)

lemma fallback_pos {g : SvgGeom} (hw : 0 ≤ g.rectW) (hh : 0 ≤ g.rectH) :
    0 < ((viewBoxDims g).getD (rectDims g)).w ∧
      0 < ((viewBoxDims g).getD (rectDims g)).h := by
  rcases hvd : viewBoxDims g with _ | dd
  · simpa using rectDims_pos hw hh
  · simpa using viewBoxDims_pos hvd

/-! ### Claim C1: pixel-budget law -/

/-- C1, counterexample.  The claim also asserts that the rounded canvas
dimensions always satisfy the budget; this fails.  With crop 1×1, requested
scale 10, and configured budget 169/25 = 6.76 (any positive `maxPixels` is
accepted by the configuration validator), the naive 100 px exceed the
budget, the capped scale is the exact square root 13/5 = 2.6, and
`Math.round(2.6) = 3` yields a 3×3 = 9 px canvas, above the 6.76 budget. -/
theorem renderCanvasPlan_rounded_budget_cex :
    (13 / 5 : ℚ) * (13 / 5) = 169 / 25 ∧
    (0 : ℚ) < 169 / 25 ∧
    ((1 : ℚ) * 10) * ((1 : ℚ) * 10) > 169 / 25 ∧
    renderCanvasPlan (fun _ => 13 / 5) (169 / 25) 1 1 10 = ⟨13 / 5, 3, 3⟩ ∧
    ¬ (((renderCanvasPlan (fun _ => 13 / 5) (169 / 25) 1 1 10).canvasW : ℚ) *
        ((renderCanvasPlan (fun _ => 13 / 5) (169 / 25) 1 1 10).canvasH : ℚ) ≤
          169 / 25) := by
  norm_num [renderCanvasPlan, cappedScale, round_eq, CanvasPlan.mk.injEq]

/-- C1, amended claim: for every export plan the REAL-VALUED output pixel
count `(w * scale) * (h * scale)` is at most the configured budget; when the
naive count would exceed the budget the scale actually used is exactly
`sqrt(maxPixels / (w * h))`; and each rounded canvas dimension differs from
its real value by at most 1/2 (so the allocated canvas can exceed the budget
only by that rounding margin, not arbitrarily).  The square-root hypothesis
states that the host `Math.sqrt` is exact at the single point the code
queries it. -/
theorem renderCanvasPlan_budget (sqrt : ℚ → ℚ) (maxPixels w h s : ℚ)
    (hw : 0 < w) (hh : 0 < h)
    (hs : sqrt (maxPixels / (w * h)) * sqrt (maxPixels / (w * h)) =
      maxPixels / (w * h)) :
    (w * (renderCanvasPlan sqrt maxPixels w h s).scale) *
      (h * (renderCanvasPlan sqrt maxPixels w h s).scale) ≤ maxPixels ∧
    ((w * s) * (h * s) > maxPixels →
      (renderCanvasPlan sqrt maxPixels w h s).scale =
        sqrt (maxPixels / (w * h))) ∧
    |w * (renderCanvasPlan sqrt maxPixels w h s).scale -
      ((renderCanvasPlan sqrt maxPixels w h s).canvasW : ℚ)| ≤ 1 / 2 ∧
    |h * (renderCanvasPlan sqrt maxPixels w h s).scale -
      ((renderCanvasPlan sqrt maxPixels w h s).canvasH : ℚ)| ≤ 1 / 2 := by
  have hwh : w * h ≠ 0 := by positivity
  unfold renderCanvasPlan cappedScale
  split_ifs with hgt
  · refine ⟨?_, fun _ => rfl, ?_, ?_⟩
    · apply le_of_eq
      calc (w * sqrt (maxPixels / (w * h))) * (h * sqrt (maxPixels / (w * h)))
          = (w * h) * (sqrt (maxPixels / (w * h)) * sqrt (maxPixels / (w * h))) := by
            ring
        _ = (w * h) * (maxPixels / (w * h)) := by rw [hs]
        _ = maxPixels := by field_simp
    · simpa using abs_sub_round (w * sqrt (maxPixels / (w * h)))
    · simpa using abs_sub_round (h * sqrt (maxPixels / (w * h)))
  · refine ⟨not_lt.mp hgt, fun hx => absurd hx hgt, ?_, ?_⟩
    · simpa using abs_sub_round (w * s)
    · simpa using abs_sub_round (h * s)

/-- C1 witness: the amended theorem applied at crop 1×1, requested scale 10,
budget 169/25, with the exact square root 13/5 supplied for the host
primitive. -/
theorem renderCanvasPlan_budget_witness :
    ((1 : ℚ) * (renderCanvasPlan (fun _ => 13 / 5) (169 / 25) 1 1 10).scale) *
      ((1 : ℚ) * (renderCanvasPlan (fun _ => 13 / 5) (169 / 25) 1 1 10).scale) ≤
        169 / 25 ∧
    (((1 : ℚ) * 10) * ((1 : ℚ) * 10) > 169 / 25 →
      (renderCanvasPlan (fun _ => 13 / 5) (169 / 25) 1 1 10).scale =
        (fun _ => (13 / 5 : ℚ)) ((169 / 25 : ℚ) / (1 * 1))) ∧
    |(1 : ℚ) * (renderCanvasPlan (fun _ => 13 / 5) (169 / 25) 1 1 10).scale -
      ((renderCanvasPlan (fun _ => 13 / 5) (169 / 25) 1 1 10).canvasW : ℚ)| ≤ 1 / 2 ∧
    |(1 : ℚ) * (renderCanvasPlan (fun _ => 13 / 5) (169 / 25) 1 1 10).scale -
      ((renderCanvasPlan (fun _ => 13 / 5) (169 / 25) 1 1 10).canvasH : ℚ)| ≤ 1 / 2 :=
  renderCanvasPlan_budget (fun _ => 13 / 5) (169 / 25) 1 1 10
    (by norm_num) (by norm_num) (by norm_num)

/-! ### Claim C2: ordered fallback chain of the dimension resolver -/

/-- C2: `getRobustDimensions` follows the ordered fallback chain — a
measured bounding box with positive width and height wins and is tagged
`bbox`; otherwise a declared viewBox parsing to four numbers with positive
width and height is used; otherwise the client rect with 1000 substituted
per zero dimension — and for every input (with the nonnegative client rect
every browser guarantees) the returned box has positive width and height. -/
theorem getRobustDimensions_chain (g : SvgGeom)
    (hw : 0 ≤ g.rectW) (hh : 0 ≤ g.rectH) :
    (∀ b : BBox, g.bbox = some b → 0 < b.w → 0 < b.h →
      getRobustDimensions g = ⟨b.x, b.y, b.w, b.h, "bbox"⟩) ∧
    ((∀ b : BBox, g.bbox = some b → ¬ (0 < b.w ∧ 0 < b.h)) →
      ∀ a b c d : ℚ, g.viewBox = some [a, b, c, d] → 0 < c → 0 < d →
        getRobustDimensions g = ⟨a, b, c, d, "viewBox"⟩) ∧
    ((∀ b : BBox, g.bbox = some b → ¬ (0 < b.w ∧ 0 < b.h)) →
      viewBoxDims g = none → getRobustDimensions g = rectDims g) ∧
    0 < (getRobustDimensions g).w ∧ 0 < (getRobustDimensions g).h := by
  refine ⟨?_, ?_, ?_, ?_⟩
  · intro b hb hbw hbh
    simp [getRobustDimensions, hb, hbw, hbh]
  · intro hbad a b c d hvb hc hd
    have hvd : viewBoxDims g = some ⟨a, b, c, d, "viewBox"⟩ := by
      simp [viewBoxDims, hvb, hc, hd]
    rcases hbb : g.bbox with _ | bl
    · simp [getRobustDimensions, hbb, hvd]
    · simp [getRobustDimensions, hbb, hbad bl hbb, hvd]
  · intro hbad hvd
    rcases hbb : g.bbox with _ | bl
    · simp [getRobustDimensions, hbb, hvd]
    · simp [getRobustDimensions, hbb, hbad bl hbb, hvd]
  · rcases hbb : g.bbox with _ | bl
    · simpa [getRobustDimensions, hbb] using fallback_pos hw hh
    · by_cases hc : 0 < bl.w ∧ 0 < bl.h
      · simp only [getRobustDimensions, hbb, if_pos hc]
        exact ⟨hc.1, hc.2⟩
      · simpa [getRobustDimensions, hbb, hc] using fallback_pos hw hh

/-- C2 witness: the chain theorem applied to a scene whose bounding-box
measurement throws, with no viewBox and a zero client rect, yielding the
1000×1000 default — a positive box. -/
theorem getRobustDimensions_chain_witness :
    0 < (getRobustDimensions ⟨none, none, 0, 0⟩).w ∧
      0 < (getRobustDimensions ⟨none, none, 0, 0⟩).h :=
  ⟨(getRobustDimensions_chain ⟨none, none, 0, 0⟩ (by norm_num)
      (by norm_num)).2.2.2.1,
    (getRobustDimensions_chain ⟨none, none, 0, 0⟩ (by norm_num)
      (by norm_num)).2.2.2.2⟩

/-! ### Claim C3: padding policy and symmetric crop expansion -/

/-- C3: for every resolved bounds, the padding equals
`max(configuredMinimumPadding / 2, 0.05 * max(w, h))`, and the exported
viewBox is the bounds expanded symmetrically by that padding: origin
`(x - padding, y - padding)`, size `(w + 2 * padding, h + 2 * padding)`,
with `prepareSvgForExport` returning exactly that size as width/height. -/
theorem exportViewBox_spec (pad0 : ℚ) (d : Dims) :
    exportPadding pad0 d = max (pad0 / 2) ((5 / 100) * max d.w d.h) ∧
    exportViewBox pad0 d =
      ⟨d.x - exportPadding pad0 d, d.y - exportPadding pad0 d,
        d.w + 2 * exportPadding pad0 d, d.h + 2 * exportPadding pad0 d⟩ := by
  constructor
  · unfold exportPadding zoomCushion
    rw [mul_comm]
  · simp only [exportViewBox, CropBox.mk.injEq]
    and_intros <;> first | trivial | ring

/-! ### Claim C4: scenario B, the 10000×10000 desktop export -/

/-- The scenario B scene: a 10000×10000 content bounding box at the origin;
the declared viewport and client rect are irrelevant because the bbox tier
wins. -/
def scenB : SvgGeom := ⟨some ⟨0, 0, 10000, 10000⟩, none, 800, 600⟩

/-- C4, counterexample.  The crop side is 10000 + 2·500 = 11000 (not the
10500 the claim derives its output from), so the capped scale is exactly
`sqrt(25e6 / 1.21e8) = 5/11` and the output canvas is exactly
11000 · 5/11 = 5000 pixels per side — not approximately 4780: the actual
value misses the claimed one by 220, far beyond a 100-pixel tolerance. -/
theorem exportPlan_scenB_cex :
    (5 / 11 : ℚ) * (5 / 11) = 25000000 / ((11000 : ℚ) * 11000) ∧
    exportPlan (fun _ => 5 / 11) 40 25000000 false 2 6 scenB =
      (⟨-500, -500, 11000, 11000⟩, ⟨5 / 11, 5000, 5000⟩) ∧
    (11000 : ℚ) ≠ 10500 ∧
    ¬ ((4780 - 100 : ℤ) ≤ 5000 ∧ (5000 : ℤ) ≤ 4780 + 100) := by
  refine ⟨by norm_num, ?_, by norm_num, by norm_num⟩
  norm_num [exportPlan, renderCanvasPlan, cappedScale, getRobustDimensions,
    scenB, exportViewBox, exportPadding, zoomCushion, jsOr, round_eq,
    Prod.ext_iff, CropBox.mk.injEq, CanvasPlan.mk.injEq]

/-- C4, amended claim: for the 10000×10000 content region on desktop with
`highResScale = 6` and budget 25000000, the naive output 66000×66000 exceeds
the budget, the scale is reduced to `sqrt(25e6 / (11000·11000)) = 5/11 ≈
0.4545` (within 0.001 of the claimed 0.455), and the output canvas is
exactly 5000 pixels per side.  The supplied square-root value is certified
exact by the first conjunct. -/
theorem exportPlan_scenB_amended :
    (5 / 11 : ℚ) * (5 / 11) = 25000000 / ((11000 : ℚ) * 11000) ∧
    ((11000 : ℚ) * 6) * ((11000 : ℚ) * 6) > 25000000 ∧
    |(5 / 11 : ℚ) - 455 / 1000| ≤ 1 / 1000 ∧
    exportPlan (fun _ => 5 / 11) 40 25000000 false 2 6 scenB =
      (⟨-500, -500, 11000, 11000⟩, ⟨5 / 11, 5000, 5000⟩) := by
  refine ⟨by norm_num, by norm_num, by rw [abs_le]; norm_num, ?_⟩
  norm_num [exportPlan, renderCanvasPlan, cappedScale, getRobustDimensions,
    scenB, exportViewBox, exportPadding, zoomCushion, jsOr, round_eq,
    Prod.ext_iff, CropBox.mk.injEq, CanvasPlan.mk.injEq]

/-! ### Format encoders and sinks (`export.js`, `exportImage` / `exportPDF`)

The encoders interact with the host through toasts, sink operations
(download / clipboard / pdf save) and possibly-failing primitives.  The
environment records the outcome of each host primitive: whether
`renderToCanvas` resolves, whether `canvas.toBlob` delivers a blob, whether
the clipboard is available, whether `navigator.clipboard.write` resolves,
and whether `window.jspdf` is present after the script-load attempt.

Control flow that matters: `canvas.toBlob(async (blob) => ...)` invokes its
callback in a later task, after the `try/catch` of `exportImage` has already
exited; a `throw` or a rejected `await` inside that callback therefore never
reaches the `catch` and surfaces as an unhandled promise rejection.  The
model records such escapes in `Outcome.unhandled`.  By contrast,
`renderToCanvas` is awaited inside the `try`, so its rejection is caught. -/

/-- A user-visible notification. -/
inductive Toast where
  | info (msg : String)
  | success (msg : String)
  | failure (title msg : String)
deriving DecidableEq

/-- Whether a toast is an error toast. -/
def Toast.isFailure : Toast → Bool
  | .failure _ _ => true
  | _ => false

/-- A sink operation attempted by an encoder. -/
inductive SinkAct where
  | download (filename : String)
  | clipboardWrite
  | pdfSave (filename : String)
deriving DecidableEq

/-- What one encoder call did: toasts shown, sink operations attempted, and
any exception that escaped every handler (an unhandled promise rejection). -/
structure Outcome where
  toasts : List Toast
  acts : List SinkAct
  unhandled : Option String
deriving DecidableEq

/-- Whether an outcome surfaced an error toast. -/
def Outcome.hasFailureToast (o : Outcome) : Bool :=
  o.toasts.any Toast.isFailure

/-- Host-environment behavior for one export call. -/
structure ExpEnv where
  renderOk : Bool
  blobOk : Bool
  clipboardAvailable : Bool
  clipboardWriteOk : Bool
  jspdfLoaded : Bool
deriving DecidableEq

/-- `exportImage` (`export.js` lines 224-259).  The `mime`/quality arguments
of `toBlob` do not affect control flow and are elided; the download-branch
success toast carries a scale prefix that is likewise elided from the
message text. -/
def exportImage (env : ExpEnv) (filename fmt : String)
    (transparent copy : Bool) : Outcome :=
  let isWebP := fmt == "webp"
  let ext := if isWebP then "webp" else "png"
  let label := (if transparent then "Transparent " else "") ++
    (if isWebP then "WebP" else "PNG")
  let processing := Toast.info ("Processing " ++ label ++ "...")
  if !env.renderOk then
    -- renderToCanvas is awaited inside the try block: rejection is caught
    -- and reported as an error toast.
    ⟨[processing, Toast.failure "Export Failed" "Image load failed"], [], none⟩
  else if !env.blobOk then
    -- the throw happens inside the async toBlob callback, after the
    -- try/catch has exited: nothing catches it.
    ⟨[processing], [], some "Encoding failed"⟩
  else if copy then
    if !env.clipboardAvailable || isWebP then
      ⟨[processing,
          Toast.success (label ++ " downloaded (Clipboard unavailable)")],
        [SinkAct.download (filename ++ "." ++ ext)], none⟩
    else if env.clipboardWriteOk then
      ⟨[processing, Toast.success "Copied to clipboard!"],
        [SinkAct.clipboardWrite], none⟩
    else
      -- navigator.clipboard.write rejects inside the toBlob callback:
      -- also an unhandled rejection, no error toast.
      ⟨[processing], [SinkAct.clipboardWrite],
        some "clipboard write rejected"⟩
  else
    ⟨[processing, Toast.success (label ++ " saved")],
      [SinkAct.download (filename ++ "." ++ ext)], none⟩

/-- `exportPDF` (`export.js` lines 264-289): when `window.jspdf` is still
missing after the load attempt, fall back to `exportImage` with format
"png"; otherwise render and save the PDF.  All awaits here sit inside the
try block, so their failures are caught. -/
def exportPDF (env : ExpEnv) (filename : String) : Outcome :=
  let generating := Toast.info "Generating PDF..."
  if !env.jspdfLoaded then
    let sub := exportImage env filename "png" false false
    ⟨generating :: sub.toasts, sub.acts, sub.unhandled⟩
  else if !env.renderOk then
    ⟨[generating, Toast.failure "PDF Failed" "Image load failed"], [], none⟩
  else
    ⟨[generating, Toast.success "PDF saved"],
      [SinkAct.pdfSave (filename ++ ".pdf")], none⟩

/-! ### Claim C5: PDF capability fallback -/

/-- C5, counterexample.  With jsPDF unavailable (and rendering/encoding
fine), `exportPDF` delivers a download named `diagram.png` — the opaque
raster extension — and no artifact under the document extension `.pdf`
exists, contradicting the claim that the delivered artifact carries the
document extension.  The fallback does succeed and surfaces no error. -/
theorem exportPDF_ext_cex :
    (exportPDF ⟨true, true, true, true, false⟩ "diagram").acts =
      [SinkAct.download "diagram.png"] ∧
    (exportPDF ⟨true, true, true, true, false⟩ "diagram").unhandled = none ∧
    (exportPDF ⟨true, true, true, true, false⟩ "diagram").hasFailureToast =
      false ∧
    SinkAct.download "diagram.pdf" ∉
      (exportPDF ⟨true, true, true, true, false⟩ "diagram").acts ∧
    SinkAct.pdfSave "diagram.pdf" ∉
      (exportPDF ⟨true, true, true, true, false⟩ "diagram").acts := by
  decide

/-- C5, amended claim: when the PDF format is requested and jsPDF cannot be
loaded, the export still succeeds — it substitutes the PNG encoding and
delivers the artifact under the RASTER (`.png`) filename extension, with a
success toast and without ever surfacing the capability-missing condition
as an error. -/
theorem exportPDF_fallback (env : ExpEnv) (filename : String)
    (hj : env.jspdfLoaded = false) (hr : env.renderOk = true)
    (hb : env.blobOk = true) :
    (exportPDF env filename).acts =
      [SinkAct.download (filename ++ ".png")] ∧
    (exportPDF env filename).unhandled = none ∧
    (exportPDF env filename).hasFailureToast = false ∧
    Toast.success "PNG saved" ∈ (exportPDF env filename).toasts := by
  obtain ⟨r, b, ca, cw, j⟩ := env
  simp only at hj hr hb
  subst hj hr hb
  simp [exportPDF, exportImage, Outcome.hasFailureToast, Toast.isFailure,
    String.append_assoc]

/-- C5 witness: the amended theorem at a concrete environment with jsPDF
missing. -/
theorem exportPDF_fallback_witness :
    (exportPDF ⟨true, true, true, true, false⟩ "diagram").acts =
      [SinkAct.download ("diagram" ++ ".png")] ∧
    (exportPDF ⟨true, true, true, true, false⟩ "diagram").unhandled = none ∧
    (exportPDF ⟨true, true, true, true, false⟩ "diagram").hasFailureToast =
      false ∧
    Toast.success "PNG saved" ∈
      (exportPDF ⟨true, true, true, true, false⟩ "diagram").toasts :=
  exportPDF_fallback ⟨true, true, true, true, false⟩ "diagram" rfl rfl rfl

/-! ### Claim C6: encoder failures are always handled -/

/-- C6: the code contradicts the claim.  When `canvas.toBlob` delivers no
blob, the `throw new Error("Encoding failed")` executes inside the async
toBlob callback, after the surrounding try/catch has exited — the rejection
escapes unhandled and no error toast is shown.  Likewise a rejected
`navigator.clipboard.write` (e.g. permission denied) inside the callback is
never caught and produces no error toast. -/
theorem exportImage_unhandled_cex :
    (exportImage ⟨true, false, true, true, true⟩ "diagram" "png"
        false false).unhandled = some "Encoding failed" ∧
    (exportImage ⟨true, false, true, true, true⟩ "diagram" "png"
        false false).hasFailureToast = false ∧
    (exportImage ⟨true, true, true, false, true⟩ "diagram" "png"
        false true).unhandled = some "clipboard write rejected" ∧
    (exportImage ⟨true, true, true, false, true⟩ "diagram" "png"
        false true).hasFailureToast = false := by
  decide

/-! ### Claim C7: WebP never goes to the clipboard -/

/-- C7: for the WebP format with a clipboard sink requested, the clipboard
is never attempted — in every environment no clipboard write occurs, and
whenever rendering and encoding succeed the artifact is delivered as a
`.webp` download instead, regardless of clipboard availability. -/
theorem exportImage_webp_copy_download (env : ExpEnv) (filename : String)
    (transparent : Bool) :
    SinkAct.clipboardWrite ∉
      (exportImage env filename "webp" transparent true).acts ∧
    (env.renderOk = true → env.blobOk = true →
      (exportImage env filename "webp" transparent true).acts =
        [SinkAct.download (filename ++ ".webp")]) := by
  obtain ⟨r, b, ca, cw, j⟩ := env
  cases r <;> cases b <;> cases ca <;> cases transparent <;>
    simp [exportImage, String.append_assoc]

/-- C7 witness: the theorem at a concrete environment where the clipboard is
available and everything succeeds — the artifact is still a download. -/
theorem exportImage_webp_copy_download_witness :
    SinkAct.clipboardWrite ∉
      (exportImage ⟨true, true, true, true, true⟩ "diagram" "webp"
        false true).acts ∧
    (exportImage ⟨true, true, true, true, true⟩ "diagram" "webp"
        false true).acts = [SinkAct.download ("diagram" ++ ".webp")] :=
  ⟨(exportImage_webp_copy_download ⟨true, true, true, true, true⟩
      "diagram" false).1,
    (exportImage_webp_copy_download ⟨true, true, true, true, true⟩
      "diagram" false).2 rfl rfl⟩

/-! ### Style-baking cloner (`core/svg-clone.js`)

The SVG tree is embedded as a root element plus its descendants in document
order (the order `querySelectorAll` returns).  Each node carries its tag,
class list, a direct-child-of-root marker (for the `:scope > g[transform]`
query of `prepareSvgForExport`), its attribute map, its inline style map,
and its text content.  `getComputedStyle` and `getBBox` are host rendering
queries on the SOURCE nodes; they enter the model as an environment indexed
by the source-node position. -/

/-- An attribute value: a string, a number (`setAttribute` with a numeric
argument), or the number list of a `viewBox` template string. -/
inductive AVal where
  | s (v : String)
  | q (v : ℚ)
  | qs (v : List ℚ)
deriving DecidableEq

/-- Set a key in an association list, overwriting an existing entry and
appending otherwise. -/
def setPair (l : List (String × α)) (k : String) (v : α) :
    List (String × α) :=
  if l.any (fun p => p.1 == k) then
    l.map (fun p => if p.1 == k then (k, v) else p)
  else l ++ [(k, v)]

/-- Look a key up in an association list. -/
def getPair (l : List (String × α)) (k : String) : Option α :=
  (l.find? (fun p => p.1 == k)).map (fun p => p.2)

/-- One element of the SVG tree. -/
structure SvgNode where
  tag : String
  classes : List String
  rootChild : Bool
  attrs : List (String × AVal)
  style : List (String × String)
  textContent : String
deriving DecidableEq

/-- `node.setAttribute(k, v)`. -/
def SvgNode.setAttribute (n : SvgNode) (k : String) (v : AVal) : SvgNode :=
  { n with attrs := setPair n.attrs k v }

/-- `node.getAttribute(k)`. -/
def SvgNode.getAttribute (n : SvgNode) (k : String) : Option AVal :=
  getPair n.attrs k

/-- `node.hasAttribute(k)`. -/
def SvgNode.hasAttribute (n : SvgNode) (k : String) : Bool :=
  (getPair n.attrs k).isSome

/-- `node.removeAttribute(k)`. -/
def SvgNode.removeAttribute (n : SvgNode) (k : String) : SvgNode :=
  { n with attrs := n.attrs.filter (fun p => p.1 != k) }

/-- `node.style[k] = v`. -/
def SvgNode.setStyle (n : SvgNode) (k v : String) : SvgNode :=
  { n with style := setPair n.style k v }

/-- An SVG document: the root element and its descendants in document
order.  `querySelectorAll` never returns the root itself. -/
structure SvgDoc where
  root : SvgNode
  nodes : List SvgNode
deriving DecidableEq

/-- Host rendering queries on the source scene, indexed by the position of
the queried node in the document-order descendant list:
`computed i p` is `getComputedStyle(node i).getPropertyValue(p)` (empty
string when unset) and `bboxWidth i` is `node i.getBBox().width`, `none`
when `getBBox` throws. -/
structure DomEnv where
  computed : Nat → String → String
  bboxWidth : Nat → Option ℚ

/-- The style allow-list `DEFAULT_STYLE_PROPS` of `svg-clone.js`. -/
def DEFAULT_STYLE_PROPS : List String :=
  ["fill", "stroke", "stroke-width", "opacity", "color", "font-family",
    "font-size", "font-weight", "font-style", "letter-spacing",
    "word-spacing", "text-anchor", "dominant-baseline",
    "alignment-baseline", "visibility"]

/-- The `TEXT_ATTRIBUTES` list of `svg-clone.js`. -/
def TEXT_ATTRIBUTES : List String :=
  ["x", "y", "dx", "dy", "textLength", "lengthAdjust", "text-anchor",
    "dominant-baseline", "alignment-baseline", "rotate", "transform"]

/-- Replace the element at an index, leaving the list unchanged when the
index is out of range. -/
def updateAt (l : List α) (i : Nat) (f : α → α) : List α :=
  match l, i with
  | [], _ => []
  | a :: as, 0 => f a :: as
  | a :: as, Nat.succ n => a :: updateAt as n f

/-- The `originalNodes.forEach((original, i) => { const cloned =
clonedNodes[i]; if (!cloned) return; ... })` pairing pattern used by all
three copying passes of `svg-clone.js`: filter both documents by the same
query, pair the matches positionally, and update the clone-side node from
the source-side node (whose document position `oi` indexes the host
environment). -/
def pairPhase (p : SvgNode → Bool) (f : Nat → SvgNode → SvgNode → SvgNode)
    (src cln : List SvgNode) : List SvgNode :=
  ((List.findIdxs p src).zip (List.findIdxs p cln)).foldl
    (fun acc oc =>
      match src.get? oc.1 with
      | some o => updateAt acc oc.2 (f oc.1 o)
      | none => acc)
    cln

/-- `preserveTextAttributes` for one original/clone text-node pair
(`svg-clone.js` lines 71-99): copy the text attributes present on the
original, stamp `textLength`/`lengthAdjust` from the measured width when no
explicit run length exists, and force no-wrap layout. -/
def preserveTextOne (env : DomEnv) (oi : Nat) (o c : SvgNode) : SvgNode :=
  let c1 := TEXT_ATTRIBUTES.foldl (fun acc attr =>
    match o.getAttribute attr with
    | some v => acc.setAttribute attr v
    | none => acc) c
  let c2 :=
    if !o.hasAttribute "textLength" then
      match env.bboxWidth oi with
      | some w =>
          if 0 < w then
            (c1.setAttribute "textLength" (AVal.q w)).setAttribute
              "lengthAdjust" (AVal.s "spacingAndGlyphs")
          else c1
      | none => c1
    else c1
  (c2.setStyle "whiteSpace" "nowrap").setStyle "overflow" "visible"

/-- `copyComputedStyles` for one node pair (`svg-clone.js` lines 50-64):
inline each allow-listed computed property of the original onto the clone,
skipping the no-op sentinels. -/
def applyComputedStyles (env : DomEnv) (styleProps : List String) (oi : Nat)
    (c : SvgNode) : SvgNode :=
  styleProps.foldl (fun acc prop =>
    let v := env.computed oi prop
    if v != "" && v != "none" && v != "normal" && v != "auto" then
      acc.setStyle prop v
    else acc) c

/-- Whether a node matches the `"text, tspan"` query. -/
def isTextTag (n : SvgNode) : Bool := n.tag == "text" || n.tag == "tspan"

/-- Options of `cloneSVG` with the defaults of `svg-clone.js`. -/
structure CloneOpts where
  preserveText : Bool := true
  preserveStyles : Bool := false
  styleProps : List String := DEFAULT_STYLE_PROPS
  preserveStyleElements : Bool := true

/-- `cloneSVG` (`svg-clone.js` lines 142-178): deep-copy the tree, then in
order copy `style` element text, preserve text attributes, and inline
computed styles.  Every write of the source function targets a node reached
from `clone`; the source document is only read. -/
def cloneSVG (env : DomEnv) (opts : CloneOpts) (svg : SvgDoc) : SvgDoc :=
  let clone := svg
  let n1 :=
    if opts.preserveStyleElements then
      pairPhase (fun n => n.tag == "style")
        (fun _ o c => { c with textContent := o.textContent })
        svg.nodes clone.nodes
    else clone.nodes
  let n2 :=
    if opts.preserveText then
      pairPhase isTextTag (preserveTextOne env) svg.nodes n1
    else n1
  let n3 :=
    if opts.preserveStyles then
      pairPhase (fun _ => true)
        (fun oi _ c => applyComputedStyles env opts.styleProps oi c)
        svg.nodes n2
    else n2
  { root := clone.root, nodes := n3 }

/-- `cloneSVGForExport` (`svg-clone.js` lines 202-208): full style baking. -/
def cloneSVGForExport (env : DomEnv) (svg : SvgDoc) : SvgDoc :=
  cloneSVG env ⟨true, true, DEFAULT_STYLE_PROPS, true⟩ svg

/-- The root-level writes of `prepareSvgForExport` (`export.js` lines
104-135), all performed on the export clone: viewBox/width/height/xmlns,
theme background, transform stripping, sizing resets, and the reset of any
direct-child pan/zoom viewport group. -/
def prepareRootOnClone (bg : String) (vb : CropBox) (doc : SvgDoc) : SvgDoc :=
  let r1 := doc.root.setAttribute "viewBox"
    (AVal.qs [vb.vx, vb.vy, vb.vw, vb.vh])
  let r2 := (r1.setAttribute "width" (AVal.q vb.vw)).setAttribute "height"
    (AVal.q vb.vh)
  let r3 := r2.setAttribute "xmlns" (AVal.s "http://www.w3.org/2000/svg")
  let r4 := (((r3.setStyle "background" bg).setStyle "transform"
    "none").removeAttribute "transform").setStyle "transformOrigin"
    "center center"
  let r5 := (r4.setStyle "margin" "0").setStyle "position" "static"
  let r6 := (((r5.setStyle "width" "100%").setStyle "height"
    "100%").setStyle "maxWidth" "none").setStyle "maxHeight" "none"
  let r7 := (r6.setStyle "minWidth" "0").setStyle "minHeight" "0"
  let ns := doc.nodes.map (fun n =>
    if n.rootChild && n.tag == "g" && n.hasAttribute "transform" &&
        n.classes.contains "svg-pan-zoom_viewport" then
      n.setAttribute "transform" (AVal.s "matrix(1,0,0,1,0,0)")
    else n)
  { root := r7, nodes := ns }

/-- The two tree regions an export call touches: the live source scene and
the detached export clone.  Every mutating DOM call in
`cloneSVG`/`prepareSvgForExport`/`exportSVG` is invoked on a reference
into the clone; reads (`getBBox`, `getComputedStyle`, `querySelectorAll`,
`getAttribute`) are the only operations applied to the source. -/
structure ExportStore where
  src : SvgDoc
  cln : SvgDoc

/-- `prepareSvgForExport` (`export.js` lines 77-138) over the store: resolve
bounds from the live geometry, build the padded crop box, produce the baked
clone and stamp the export sizing/state onto it. -/
def prepareSvgStore (env : DomEnv) (pad0 : ℚ) (bg : String)
    (geom : SvgGeom) (st : ExportStore) : ExportStore × CropBox :=
  let d := getRobustDimensions geom
  let vb := exportViewBox pad0 d
  let cln := prepareRootOnClone bg vb (cloneSVGForExport env st.src)
  ({ src := st.src, cln := cln }, vb)

/-- `exportSVG` (`export.js` lines 198-214) up to serialization: prepare the
clone, then insert the background rectangle as its first child (attribute
order follows the `setAttribute` calls). -/
def exportSVGStore (env : DomEnv) (pad0 : ℚ) (bg : String) (geom : SvgGeom)
    (st : ExportStore) : ExportStore :=
  let pr := prepareSvgStore env pad0 bg geom st
  let rect : SvgNode :=
    { tag := "rect", classes := [], rootChild := true,
      attrs := [("x", AVal.q pr.2.vx), ("y", AVal.q pr.2.vy),
        ("width", AVal.s "100%"), ("height", AVal.s "100%"),
        ("fill", AVal.s bg)],
      style := [], textContent := "" }
  { src := pr.1.src,
    cln := { root := pr.1.cln.root, nodes := rect :: pr.1.cln.nodes } }

/-- Shared frame fact: the source region of the store is untouched by the
whole prepare-and-encode pipeline — every write lands in the clone region. -/
lemma exportSVGStore_src_frame (env : DomEnv) (pad0 : ℚ) (bg : String)
    (geom : SvgGeom) (st : ExportStore) :
    (exportSVGStore env pad0 bg geom st).src = st.src := rfl

/-! ### Claim C8: the pipeline never mutates the source scene -/

/-- C8: for every export call — bounds resolution, baking, root
preparation, and the vector-encoder background-rectangle insertion — the
source tree region of the store is structurally identical before and after;
every attribute write, style write and structural change lands in the
detached clone region.  In the embedding each mutating DOM call of the
source code (`cloned.setAttribute`, `cloned.style[...] = ...`,
`exportSvg.setAttribute`, `svg.insertBefore(rect, ...)` on the prepared
clone) is a function update of the `cln` component, mirroring the fact that
in `export.js`/`svg-clone.js` every mutator is invoked on a reference
obtained from `cloneNode`. -/
theorem export_pipeline_preserves_source (env : DomEnv) (pad0 : ℚ)
    (bg : String) (geom : SvgGeom) (st : ExportStore) :
    (exportSVGStore env pad0 bg geom st).src = st.src ∧
    ((prepareSvgStore env pad0 bg geom st).1).src = st.src :=
  ⟨exportSVGStore_src_frame env pad0 bg geom st, rfl⟩

/-! ### Claim C9: baking is idempotent across calls -/

/-- C9: baking the same source scene twice with identical options yields
structurally equivalent baked scenes.  Two export calls whose stores agree
on the source region produce EQUAL clones (hence the same node count and
the same inlined style/text attributes on corresponding nodes), and because
the first call leaves the source intact, re-running the pipeline on its
result reproduces the same baked clone. -/
theorem cloneSVG_bake_deterministic (env : DomEnv) (pad0 : ℚ) (bg : String)
    (geom : SvgGeom) (st1 st2 : ExportStore) (hsrc : st1.src = st2.src) :
    (exportSVGStore env pad0 bg geom st1).cln =
      (exportSVGStore env pad0 bg geom st2).cln ∧
    (exportSVGStore env pad0 bg geom
        (exportSVGStore env pad0 bg geom st1)).cln =
      (exportSVGStore env pad0 bg geom st1).cln ∧
    (exportSVGStore env pad0 bg geom st1).cln.nodes.length =
      (exportSVGStore env pad0 bg geom st2).cln.nodes.length := by
  have key : ∀ s t : ExportStore, s.src = t.src →
      (exportSVGStore env pad0 bg geom s).cln =
        (exportSVGStore env pad0 bg geom t).cln := by
    intro s t h
    simp only [exportSVGStore, prepareSvgStore, h]
  exact ⟨key st1 st2 hsrc,
    key (exportSVGStore env pad0 bg geom st1) st1
      (exportSVGStore_src_frame env pad0 bg geom st1),
    by rw [key st1 st2 hsrc]⟩

/-- A concrete host environment for witnesses: no computed styles, no
measurable text. -/
def sampleEnv : DomEnv := ⟨fun _ _ => "", fun _ => none⟩

/-- A concrete scene for witnesses: an svg root with one text child. -/
def sampleStore : ExportStore :=
  ⟨⟨⟨"svg", [], false, [], [], ""⟩, [⟨"text", [], true, [], [], "hello"⟩]⟩,
    ⟨⟨"svg", [], false, [], [], ""⟩, []⟩⟩

/-- Concrete geometry for witnesses. -/
def sampleGeom : SvgGeom := ⟨some ⟨0, 0, 10, 10⟩, none, 10, 10⟩

/-- C9 witness: the determinism theorem applied to two stores with the same
(concrete) source scene. -/
theorem cloneSVG_bake_deterministic_witness :
    (exportSVGStore sampleEnv 40 "white" sampleGeom sampleStore).cln =
      (exportSVGStore sampleEnv 40 "white" sampleGeom sampleStore).cln ∧
    (exportSVGStore sampleEnv 40 "white" sampleGeom
        (exportSVGStore sampleEnv 40 "white" sampleGeom sampleStore)).cln =
      (exportSVGStore sampleEnv 40 "white" sampleGeom sampleStore).cln ∧
    (exportSVGStore sampleEnv 40 "white" sampleGeom sampleStore).cln.nodes.length =
      (exportSVGStore sampleEnv 40 "white" sampleGeom sampleStore).cln.nodes.length :=
  cloneSVG_bake_deterministic sampleEnv 40 "white" sampleGeom sampleStore
    sampleStore rfl

/-! ### Configuration state and validation (`core/config.js`)

A configuration object is a string-keyed record.  Update values arrive from
the caller as JavaScript values; the embedding models the value kinds the
validators distinguish (numbers, strings, booleans, `null`, objects), with
`absent` marking an absent key — `key in DEFAULT_CONFIG` is exactly
`DEFAULT_CONFIG key ≠ absent`.  The numeric validators `(v) => v >= lo && v
<= hi` are modelled on numbers (the JavaScript coercion of non-number
operands is outside the embedding; the validators reject non-numbers). -/

/-- A JavaScript configuration value. -/
inductive CVal where
  | num (q : ℚ)
  | str (s : String)
  | bool (b : Bool)
  | null
  | obj
  | absent
deriving DecidableEq

/-- A configuration object: total over keys, `absent` when absent. -/
def Cfg := String → CVal

/-- `DEFAULT_CONFIG` of `config.js` lines 13-72.  The layout token, export
defaults and timing values come from `docs/USAGE.md` / `docs/API.md` and
the `config.js` comments where `core/constants.js` (absent from the
sources) held them: layout "floating", scales 6 and 2, budget 25000000,
helpTimeout 8000, toast durations 2500 and 5000, zoom bounds 25 and 1/20,
animation durations 200. -/
def DEFAULT_CONFIG : Cfg := fun k =>
  if k = "accentColor" then .null
  else if k = "backgroundColor" then .null
  else if k = "textColor" then .null
  else if k = "layout" then .str "floating"
  else if k = "highResScale" then .num 6
  else if k = "mobileScale" then .num 2
  else if k = "maxPixels" then .num 25000000
  else if k = "ui" then .obj
  else if k = "showKeyboardHelp" then .bool true
  else if k = "helpTimeout" then .num 8000
  else if k = "diagramSelector" then .str ".diagram, .chart, [data-diagram]"
  else if k = "rememberZoom" then .bool false
  else if k = "animateOpen" then .bool true
  else if k = "printFriendly" then .bool true
  else if k = "toastDuration" then .num 2500
  else if k = "errorToastDuration" then .num 5000
  else if k = "pdfLibraryUrl" then
    .str "https://cdnjs.cloudflare.com/ajax/libs/jspdf/2.5.1/jspdf.umd.min.js"
  else if k = "maxZoomScale" then .num 25
  else if k = "minZoomScale" then .num (mkRat 1 20)
  else if k = "zoomAnimationDuration" then .num 200
  else if k = "panAnimationDuration" then .num 200
  else if k = "onExport" then .null
  else if k = "onError" then .null
  else if k = "onZoomChange" then .null
  else if k = "onOpen" then .null
  else if k = "onClose" then .null
  else .absent

/-- `newConfig[key] = value`. -/
def setK (k : String) (v : CVal) (c : Cfg) : Cfg :=
  fun q => if q = k then v else c q

/-- Modelled from the spec: the `LAYOUTS` tokens of the missing
`core/constants.js`, documented in the `config.js` comments and the docs as
"header", "floating" and "off". -/
def LAYOUT_TOKENS : List CVal := [.str "header", .str "floating", .str "off"]

/-- Modelled from the spec: `BUTTON_STYLES` values listed in the
`config.js` comment. -/
def BUTTON_STYLE_TOKENS : List CVal :=
  [.str "transparent", .str "accent", .str "solid", .str "neutral"]

/-- Modelled from the spec: `ZOOM.MAX_SCALE_LIMIT`, documented range 1-50. -/
def ZOOM_MAX_SCALE_LIMIT : ℚ := 50

/-- Modelled from the spec: `ZOOM.MIN_SCALE_LIMIT`, documented range
0.01-1. -/
def ZOOM_MIN_SCALE_LIMIT : ℚ := mkRat 1 100

/-- `(v) => v >= lo && v <= hi` on a configuration value. -/
def numIn (v : CVal) (lo hi : ℚ) : Bool :=
  match v with
  | .num q => decide (lo ≤ q ∧ q ≤ hi)
  | _ => false

/-- `(v) => v > 0`. -/
def isPosNum (v : CVal) : Bool :=
  match v with
  | .num q => decide (0 < q)
  | _ => false

/-- `(v) => v >= 0`. -/
def isNonnegNum (v : CVal) : Bool :=
  match v with
  | .num q => decide (0 ≤ q)
  | _ => false

/-- `(v) => typeof v === "string" && v.length > 0`. -/
def isNonemptyStr (v : CVal) : Bool :=
  match v with
  | .str s => decide (0 < s.length)
  | _ => false

/-- `validateConfigValue` (`config.js` lines 247-269): the per-key
validator table; keys without a validator accept anything. -/
def validateConfigValue (k : String) (v : CVal) : Bool :=
  if k = "highResScale" then numIn v 1 10
  else if k = "mobileScale" then numIn v 1 5
  else if k = "maxZoomScale" then numIn v 1 ZOOM_MAX_SCALE_LIMIT
  else if k = "minZoomScale" then numIn v ZOOM_MIN_SCALE_LIMIT 1
  else if k = "maxPixels" then isPosNum v
  else if k = "helpTimeout" then isNonnegNum v
  else if k = "toastDuration" then isNonnegNum v
  else if k = "errorToastDuration" then isNonnegNum v
  else if k = "zoomAnimationDuration" then isNonnegNum v
  else if k = "panAnimationDuration" then isNonnegNum v
  else if k = "diagramSelector" then isNonemptyStr v
  else if k = "pdfLibraryUrl" then isNonemptyStr v
  else if k = "layout" then LAYOUT_TOKENS.contains v
  else if k = "ui.buttons.style" then BUTTON_STYLE_TOKENS.contains v
  else true

/-- One iteration of the `updateConfig` loop (`config.js` lines 278-290):
skip unknown keys, skip values failing their validator, otherwise assign. -/
def applyEntry (c : Cfg) (kv : String × CVal) : Cfg :=
  if DEFAULT_CONFIG kv.1 = CVal.absent then c
  else if validateConfigValue kv.1 kv.2 = false then c
  else setK kv.1 kv.2 c

/-- Condition under which `validateConfig` resets a numeric field:
`config.field < lo || config.field > hi` (false on the non-numeric values
reachable here). -/
def clampBad (v : CVal) (lo hi : ℚ) : Bool :=
  match v with
  | .num q => decide (q < lo ∨ hi < q)
  | _ => false

/-- `validateConfig` (`config.js` lines 307-346): reset out-of-range
`highResScale`, `mobileScale`, `layout`, `maxZoomScale`, `minZoomScale` to
their defaults, in the order the source performs the checks. -/
def validateConfig (c : Cfg) : Cfg :=
  let c1 := if clampBad (c "highResScale") 1 10 then
      setK "highResScale" (DEFAULT_CONFIG "highResScale") c else c
  let c2 := if clampBad (c1 "mobileScale") 1 5 then
      setK "mobileScale" (DEFAULT_CONFIG "mobileScale") c1 else c1
  let c3 := if !(LAYOUT_TOKENS.contains (c2 "layout")) then
      setK "layout" (DEFAULT_CONFIG "layout") c2 else c2
  let c4 := if clampBad (c3 "maxZoomScale") 1 ZOOM_MAX_SCALE_LIMIT then
      setK "maxZoomScale" (DEFAULT_CONFIG "maxZoomScale") c3 else c3
  let c5 := if clampBad (c4 "minZoomScale") ZOOM_MIN_SCALE_LIMIT 1 then
      setK "minZoomScale" (DEFAULT_CONFIG "minZoomScale") c4 else c4
  c5

/-- `updateConfig` (`config.js` lines 275-294): fold the option entries
through the validated assignment, then run `validateConfig` on the result. -/
def updateConfig (options : List (String × CVal)) (c : Cfg) : Cfg :=
  validateConfig (options.foldl applyEntry c)

/-- A sequence of `updateConfig` calls starting from a configuration. -/
def applyUpdates (calls : List (List (String × CVal))) (c : Cfg) : Cfg :=
  calls.foldl (fun acc o => updateConfig o acc) c

/-- The configuration invariant claimed: `highResScale` in [1,10],
`mobileScale` in [1,5], positive `maxPixels`, known layout token. -/
def configOk (c : Cfg) : Bool :=
  numIn (c "highResScale") 1 10 && numIn (c "mobileScale") 1 5 &&
    isPosNum (c "maxPixels") && LAYOUT_TOKENS.contains (c "layout")

/-- The stronger state on which `validateConfig` is the identity: the
claimed invariant plus in-range zoom bounds. -/
def validatedOk (c : Cfg) : Bool :=
  configOk c && numIn (c "maxZoomScale") 1 ZOOM_MAX_SCALE_LIMIT &&
    numIn (c "minZoomScale") ZOOM_MIN_SCALE_LIMIT 1

/-! ### Helper lemmas for the configuration invariant -/

lemma clampBad_of_numIn {v : CVal} {lo hi : ℚ} (h : numIn v lo hi = true) :
    clampBad v lo hi = false := by
  cases v <;> simp_all [numIn, clampBad, not_or, not_lt]

lemma validateConfig_eq_of_ok {c : Cfg}
    (h1 : numIn (c "highResScale") 1 10 = true)
    (h2 : numIn (c "mobileScale") 1 5 = true)
    (h3 : LAYOUT_TOKENS.contains (c "layout") = true)
    (h4 : numIn (c "maxZoomScale") 1 ZOOM_MAX_SCALE_LIMIT = true)
    (h5 : numIn (c "minZoomScale") ZOOM_MIN_SCALE_LIMIT 1 = true) :
    validateConfig c = c := by
  unfold validateConfig
  simp only [clampBad_of_numIn h1, clampBad_of_numIn h2, h3,
    clampBad_of_numIn h4, clampBad_of_numIn h5, Bool.not_true,
    Bool.false_eq_true, if_false, ite_false]

lemma applyEntry_watched (P : CVal → Prop) (key : String)
    (hOK : ∀ v, validateConfigValue key v = true → P v)
    (c : Cfg) (kv : String × CVal) (hc : P (c key)) :
    P (applyEntry c kv key) := by
  unfold applyEntry
  split_ifs with hu hv
  · exact hc
  · exact hc
  · show P (if key = kv.1 then kv.2 else c key)
    by_cases hk : key = kv.1
    · rw [if_pos hk]
      cases hb : validateConfigValue kv.1 kv.2 with
      | false => exact absurd hb hv
      | true => exact hOK kv.2 (by rw [hk]; exact hb)
    · rw [if_neg hk]
      exact hc

lemma foldl_watched (P : CVal → Prop) (key : String)
    (hOK : ∀ v, validateConfigValue key v = true → P v) :
    ∀ (opts : List (String × CVal)) (c : Cfg),
      P (c key) → P ((opts.foldl applyEntry c) key)
  | [], _, hc => hc
  | kv :: tl, c, hc =>
      foldl_watched P key hOK tl (applyEntry c kv)
        (applyEntry_watched P key hOK c kv hc)

lemma validatedOk_parts {c : Cfg} (h : validatedOk c = true) :
    numIn (c "highResScale") 1 10 = true ∧
    numIn (c "mobileScale") 1 5 = true ∧
    isPosNum (c "maxPixels") = true ∧
    LAYOUT_TOKENS.contains (c "layout") = true ∧
    numIn (c "maxZoomScale") 1 ZOOM_MAX_SCALE_LIMIT = true ∧
    numIn (c "minZoomScale") ZOOM_MIN_SCALE_LIMIT 1 = true := by
  unfold validatedOk configOk at h
  simp only [Bool.and_eq_true] at h
  tauto

lemma updateConfig_ok (o : List (String × CVal)) (c : Cfg)
    (h : validatedOk c = true) : validatedOk (updateConfig o c) = true := by
  obtain ⟨h1, h2, h3, h4, h5, h6⟩ := validatedOk_parts h
  have f1 := foldl_watched (fun v => numIn v 1 10 = true) "highResScale"
    (fun _ hv => hv) o c h1
  have f2 := foldl_watched (fun v => numIn v 1 5 = true) "mobileScale"
    (fun _ hv => hv) o c h2
  have f3 := foldl_watched (fun v => isPosNum v = true) "maxPixels"
    (fun _ hv => hv) o c h3
  have f4 := foldl_watched (fun v => LAYOUT_TOKENS.contains v = true)
    "layout" (fun _ hv => hv) o c h4
  have f5 := foldl_watched (fun v => numIn v 1 ZOOM_MAX_SCALE_LIMIT = true)
    "maxZoomScale" (fun _ hv => hv) o c h5
  have f6 := foldl_watched (fun v => numIn v ZOOM_MIN_SCALE_LIMIT 1 = true)
    "minZoomScale" (fun _ hv => hv) o c h6
  unfold updateConfig
  rw [validateConfig_eq_of_ok f1 f2 f4 f5 f6]
  unfold validatedOk configOk
  rw [f1, f2, f3, f4, f5, f6]
  rfl

/-! ### Claim C10: configuration validity is an invariant of updateConfig -/

/-- C10: starting from the default configuration, after any sequence of
`updateConfig` calls the configuration satisfies `highResScale` in [1,10],
`mobileScale` in [1,5], `maxPixels` positive, and `layout` one of the known
layout tokens; and a single option entry with an unknown key, or whose
value fails its validator, leaves the configuration unchanged (in
particular the corresponding existing field keeps its value). -/
theorem updateConfig_invariant :
    (∀ calls : List (List (String × CVal)),
      configOk (applyUpdates calls DEFAULT_CONFIG) = true) ∧
    (∀ (c : Cfg) (k : String) (v : CVal),
      validatedOk c = true →
      DEFAULT_CONFIG k = CVal.absent ∨ validateConfigValue k v = false →
      updateConfig [(k, v)] c = c) := by
  constructor
  · have strong : ∀ (calls : List (List (String × CVal))) (c : Cfg),
        validatedOk c = true → validatedOk (applyUpdates calls c) = true := by
      intro calls
      induction calls with
      | nil => exact fun _ h => h
      | cons o tl ih =>
          exact fun c h => ih (updateConfig o c) (updateConfig_ok o c h)
    intro calls
    have h := strong calls DEFAULT_CONFIG (by decide)
    obtain ⟨h1, h2, h3, h4, _, _⟩ := validatedOk_parts h
    unfold configOk
    rw [h1, h2, h3, h4]
    rfl
  · intro c k v hval hbad
    obtain ⟨h1, h2, _, h4, h5, h6⟩ := validatedOk_parts hval
    have hfold : List.foldl applyEntry c [(k, v)] = c := by
      simp only [List.foldl]
      unfold applyEntry
      rcases hbad with hb | hb
      · rw [if_pos hb]
      · by_cases hk : DEFAULT_CONFIG k = CVal.absent
        · rw [if_pos hk]
        · rw [if_neg hk, if_pos hb]
    unfold updateConfig
    rw [hfold]
    exact validateConfig_eq_of_ok h1 h2 h4 h5 h6

/-- C10 witness: the invariant after one call carrying an out-of-range
`highResScale` (rejected, then clamped state untouched) and a valid
`maxPixels`; and the no-change behavior of a single invalid entry applied
to the default configuration. -/
theorem updateConfig_invariant_witness :
    configOk (applyUpdates [[("highResScale", CVal.num 99),
      ("maxPixels", CVal.num 7)]] DEFAULT_CONFIG) = true ∧
    updateConfig [("highResScale", CVal.num 99)] DEFAULT_CONFIG =
      DEFAULT_CONFIG :=
  ⟨updateConfig_invariant.1 [[("highResScale", CVal.num 99),
      ("maxPixels", CVal.num 7)]],
    updateConfig_invariant.2 DEFAULT_CONFIG "highResScale" (CVal.num 99)
      (by decide) (Or.inr (by decide))⟩

end DiagView
